import Mathlib

/-!
Verification of the Franklin MOTD/config core (`src/lib/motd.py`,
`src/lib/main.py`, `src/lib/constants.py`) against its specification.

Modelling conventions, shared by all definitions below:
* Python strings are Lean `String`s (both are sequences of Unicode scalar
  values, so Python `len` agrees with `String.length`).
* Text files are modelled as `Option (List String)`: `none` stands for an
  absent or unreadable file (the `FileNotFoundError/IOError/OSError` branch of
  the source), `some lines` for the file's lines without their trailing
  newline.  The embedded line iteration therefore drops the `"\n"` that
  Python's file iterator keeps; every embedded consumer first applies
  `py_strip`, which removes that newline, so the two views agree.
* Python `float` percentages and byte counts are modelled as `ℚ`; `int()`
  truncation and `:.0f` rounding are made explicit (`py_int`,
  `round_half_even`).
* External subprocesses and sockets are modelled by `Option` results inside an
  environment record: `none` is the exception branch that the source catches.
-/

/-- Whitespace set of Python's `str.strip()` (the ASCII cases). -/
def py_is_space (c : Char) : Bool :=
  c = ' ' || c = '\t' || c = '\n' || c = '\r' || c = '\x0b' || c = '\x0c'

/-- Python `str.strip()` on the character list. -/
def py_strip_list (l : List Char) : List Char :=
  ((l.dropWhile py_is_space).reverse.dropWhile py_is_space).reverse

/-- Python `str.strip()`. -/
def py_strip (s : String) : String :=
  String.mk (py_strip_list s.data)

/-- Python `str.strip(ch)` for a single character argument: removes every
leading and trailing occurrence of `ch`. -/
def py_strip_char (ch : Char) (s : String) : String :=
  String.mk (((s.data.dropWhile (fun c => c = ch)).reverse.dropWhile
    (fun c => c = ch)).reverse)

/-- Python `str.startswith(pre)`. -/
def py_starts_with (s pre : String) : Bool :=
  pre.data.isPrefixOf s.data

/-- Python `str.split(sep)` on character lists: keeps empty pieces, returns
`n + 1` pieces for `n` separators. -/
def py_split_char (sep : Char) : List Char → List (List Char)
  | [] => [[]]
  | c :: rest =>
    match py_split_char sep rest with
    | [] => [[]]
    | grp :: gs => if c = sep then [] :: grp :: gs else (c :: grp) :: gs

/-- Python `str.split(sep)` producing strings. -/
def py_split (sep : Char) (s : String) : List String :=
  (py_split_char sep s.data).map String.mk

/-- The part of `s` after the first `sep`, i.e. Python `s.split(sep, 1)[1]`.
Every use below is guarded by a `startswith` check that guarantees the
separator is present (Python would raise `IndexError` otherwise). -/
def py_after_first (sep : Char) (s : String) : String :=
  String.mk ((s.data.dropWhile (fun c => c != sep)).drop 1)

/-- Python `" " * n` for a possibly negative `n` (negative yields `""`). -/
def py_spaces (n : Int) : String :=
  String.mk (List.replicate n.toNat ' ')

/-- Python `int()` applied to a rational: truncation toward zero. -/
def py_int (q : ℚ) : Int :=
  if 0 ≤ q then ⌊q⌋ else -⌊-q⌋

/-- Rounding mode of Python's `f"{x:.0f}"`: round half to even. -/
def round_half_even (q : ℚ) : Int :=
  if q - ⌊q⌋ < 1 / 2 then ⌊q⌋
  else if 1 / 2 < q - ⌊q⌋ then ⌊q⌋ + 1
  else if ⌊q⌋ % 2 = 0 then ⌊q⌋ else ⌊q⌋ + 1

/-- Python `f"{x:.0f}"` (for the nonnegative values produced by the probes). -/
def py_format_0f (q : ℚ) : String :=
  toString (round_half_even q)

/-! ## constants.py -/

/-- A `{base, dark, light}` palette entry (`CAMPFIRE_COLORS` values). -/
structure ColorDict where
  base : String
  dark : String
  light : String
deriving DecidableEq, Repr

/-- Constant `CAMPFIRE_COLORS` from `constants.py`, as an ordered association list. -/
def CAMPFIRE_COLORS : List (String × ColorDict) :=
  [("Cello", ⟨"#607a97", "#3d4f63", "#a3bdd4"⟩),
   ("Terracotta", ⟨"#b87b6a", "#7a4a3e", "#e8b5a5"⟩),
   ("Black Rock", ⟨"#747b8a", "#494f5c", "#a8b0be"⟩),
   ("Sage", ⟨"#8fb14b", "#5a6e2f", "#c5e088"⟩),
   ("Golden Amber", ⟨"#f9c574", "#b8873e", "#ffe0b0"⟩),
   ("Flamingo", ⟨"#e75351", "#a12f2d", "#ff9d9b"⟩),
   ("Blue Calx", ⟨"#b8c5d9", "#7b8da8", "#e5edf5"⟩)]

/-- Constant `DEFAULT_CAMPFIRE_COLOR` from `constants.py`. -/
def DEFAULT_CAMPFIRE_COLOR : String := "Cello"

/-- Constant `MOTD_MAX_WIDTH` from `constants.py`. -/
def MOTD_MAX_WIDTH : Nat := 80

/-- Constant `MOTD_MIN_WIDTH` from `constants.py`. -/
def MOTD_MIN_WIDTH : Nat := 40

/-- Constant `GLYPH_ACTION` from `constants.py`. -/
def GLYPH_ACTION : String := "⏺"

/-! ## motd.py : progress bar, config readers -/

/-- Function `create_progress_bar` from `motd.py`: `filled = int(percent / 100 * width)`
solid blocks, `width - filled` light blocks, between `|` boundary glyphs.
Both Python repetition counts are clamped at zero (`'x' * n` is `""` for
negative `n`). -/
def create_progress_bar (percent : ℚ) (width : Nat := 10) : String :=
  let filled : Int := py_int (percent / 100 * width)
  let empty : Int := (width : Int) - filled
  "|" ++ String.mk (List.replicate filled.toNat '█')
      ++ String.mk (List.replicate empty.toNat '░') ++ "|"

/-- Helper of `get_monitored_services_list`: the loop over the config lines.
Returns the parsed list from the first line starting with
`MONITORED_SERVICES=` (the source `break`s there), else `[]`. -/
def monitored_from_lines : List String → List String
  | [] => []
  | line :: rest =>
    if py_starts_with line "MONITORED_SERVICES=" then
      let services_str := py_strip_char '"' (py_strip (py_after_first '=' line))
      ((py_split ',' services_str).map py_strip).filter (fun s => s != "")
    else monitored_from_lines rest

/-- Function `get_monitored_services_list` from `motd.py`; the config file is `none`
when absent or unreadable. -/
def get_monitored_services_list (config_file : Option (List String)) : List String :=
  match config_file with
  | none => []
  | some lines => monitored_from_lines lines

/-- Helper of `load_motd_color`: the loop over the config lines looking for
the first `MOTD_COLOR_NAME=` line. -/
def color_name_from_lines : List String → Option String
  | [] => none
  | line :: rest =>
    if py_starts_with line "MOTD_COLOR_NAME=" then
      some (py_strip_char '"' (py_strip (py_after_first '=' line)))
    else color_name_from_lines rest

/-- Function `load_motd_color` from `motd.py`: stored name if present, falling back to
`DEFAULT_CAMPFIRE_COLOR` when the file is absent/unreadable or the name is
not a `CAMPFIRE_COLORS` key; returns the name with its palette entry. -/
def load_motd_color (config_file : Option (List String)) : String × ColorDict :=
  let color_name0 :=
    match config_file with
    | none => DEFAULT_CAMPFIRE_COLOR
    | some lines => (color_name_from_lines lines).getD DEFAULT_CAMPFIRE_COLOR
  let color_name :=
    if (CAMPFIRE_COLORS.lookup color_name0).isSome then color_name0
    else DEFAULT_CAMPFIRE_COLOR
  (color_name, (CAMPFIRE_COLORS.lookup color_name).getD ⟨"", "", ""⟩)

/-! ## motd.py : grid layout -/

/-- One rendered line of the MOTD: a list of `(text, style)` spans, as
appended to a `rich` `Text`. -/
abbrev MLine := List (String × String)

/-- Python `f"{item:<{w}}"`: left-justify with spaces, no truncation. -/
def py_ljust (s : String) (w : Nat) : String :=
  s ++ String.mk (List.replicate (w - s.length) ' ')

/-- The chunking loop of `format_grid`:
`for i in range(0, len(items), items_per_line): items[i : i + items_per_line]`.
For step `0` Python's `range` raises; that case is unreachable because the
caller passes `max(1, _)`. -/
def py_chunks (n : Nat) (l : List α) : List (List α) :=
  match l with
  | [] => []
  | x :: xs =>
    match n with
    | 0 => []
    | m + 1 => (x :: xs).take (m + 1) :: py_chunks (m + 1) (xs.drop m)
termination_by l.length
decreasing_by simp [List.length_drop]; omega

/-- The row grouping computed by `format_grid` from `motd.py`:
`items_per_line = max(1, (width - 1) // max_item_width)`, items chunked in
original order.  (`width ≥ 1` in every call, so Nat subtraction agrees with
Python; for `width = 0` both sides yield one item per line.) -/
def format_grid_chunks (items : List String) (width : Nat)
    (max_item_width : Nat) : List (List String) :=
  if items.isEmpty then []
  else py_chunks (max 1 ((width - 1) / max_item_width)) items

/-- The spans appended for one grid item: `" ⏺ "` then the left-justified
label plus a trailing space, both in the given color. -/
def format_grid_item (item : String) (color : String)
    (max_item_width : Nat) : List (String × String) :=
  [(" " ++ GLYPH_ACTION ++ " ", color),
   (py_ljust item (max_item_width - 4) ++ " ", color)]

/-- Function `format_grid` from `motd.py`: one `MLine` per chunk. -/
def format_grid (items : List String) (width : Nat) (color : String)
    (max_item_width : Nat := 22) : List MLine :=
  (format_grid_chunks items width max_item_width).map
    (fun chunk => (chunk.map (fun item => format_grid_item item color max_item_width)).flatten)

/-! ## motd.py : system probes

Each probe takes the outcome of its external interaction as an explicit
argument; `none` is the exception branch the source catches. -/

/-- Result of `socket.gethostname()`, or `none` on `socket.error/OSError`. -/
def get_hostname (r : Option String) : String :=
  r.getD "unknown"

/-- UDP-socket source address, or `none` on `socket.error/OSError/TimeoutError`. -/
def get_ip_address (r : Option String) : String :=
  r.getD "0.0.0.0"

/-- The platform-dependent input of `get_os_version`: macOS with the
`sw_vers -productVersion` stdout (`none` when the call fails), Linux with the
lines of `/etc/os-release` (`none` when unreadable), or another platform name. -/
inductive OsEnv where
  | darwin (sw_vers : Option String)
  | linux (os_release : Option (List String))
  | otherSys (name : String)
deriving DecidableEq

/-- Python `value.replace("\\" + ch, ch)` for the escaped-quote handling of
`get_os_version` (left-to-right, non-overlapping). -/
def replace_escaped (ch : Char) : List Char → List Char
  | '\\' :: d :: rest =>
    if d = ch then ch :: replace_escaped ch rest
    else '\\' :: replace_escaped ch (d :: rest)
  | d :: rest => d :: replace_escaped ch rest
  | [] => []

/-- Python `l.startswith(ch) and l.endswith(ch)` for one character. -/
def starts_ends_with (ch : Char) (l : List Char) : Bool :=
  match l with
  | [] => false
  | x :: _ => x = ch && l.getLast? == some ch

/-- The quoted-value handling of `get_os_version`: strip a matching pair of
double or single quotes and unescape the embedded quotes. -/
def process_os_release_value (v : List Char) : List Char :=
  if starts_ends_with '"' v then replace_escaped '"' ((v.drop 1).dropLast)
  else if starts_ends_with '\'' v then replace_escaped '\'' ((v.drop 1).dropLast)
  else v

/-- The `os_release` dict built by `get_os_version`: one `(key, value)` pair
per line containing `=`, later assignments shadowing earlier ones (looked up
via `os_release_get`). -/
def os_release_pairs (lines : List String) : List (String × String) :=
  lines.foldl
    (fun acc line =>
      if line.data.contains '=' then
        let stripped := py_strip line
        let key := String.mk (stripped.data.takeWhile (fun c => c != '='))
        let value := (py_after_first '=' stripped).data
        acc ++ [(key, String.mk (process_os_release_value value))]
      else acc)
    []

/-- Python `dict.get(key, default)` over the pairs (last assignment wins). -/
def os_release_get (pairs : List (String × String)) (key dflt : String) : String :=
  (pairs.reverse.lookup key).getD dflt

/-- Function `get_os_version` from `motd.py`. -/
def get_os_version : OsEnv → String
  | .darwin (some out) => "macOS " ++ py_strip out
  | .darwin none => "macOS"
  | .linux none => "Linux"
  | .linux (some lines) =>
    let pairs := os_release_pairs lines
    let distro := os_release_get pairs "NAME" "Linux"
    let version := os_release_get pairs "VERSION_ID" ""
    if version != "" then distro ++ " " ++ version else distro
  | .otherSys name => name

/-- Raw `shutil.disk_usage("/")` numbers (bytes); `none` when it raises. -/
structure DiskRaw where
  total : Nat
  used : Nat
deriving DecidableEq

/-- Function `get_disk_stats` from `motd.py`: `(bar, percent, usedLabel, totalLabel)`.
A zero total makes the Python percent computation raise `ZeroDivisionError`,
which the blanket `except` turns into the placeholder tuple. -/
def get_disk_stats (r : Option DiskRaw) : String × ℚ × String × String :=
  match r with
  | none => ("|??????????|", 0, "??", "??")
  | some d =>
    if d.total = 0 then ("|??????????|", 0, "??", "??")
    else
      let total_gb : ℚ := (d.total : ℚ) / 1024 ^ 3
      let used_gb : ℚ := (d.used : ℚ) / 1024 ^ 3
      let percent : ℚ := (d.used : ℚ) / (d.total : ℚ) * 100
      (create_progress_bar percent, percent,
        py_format_0f used_gb ++ "G", py_format_0f total_gb ++ "G")

/-- Function `get_memory_stats` from `motd.py`: `psutil.virtual_memory()` used/total
bytes, or `none` when it raises. -/
def get_memory_stats (r : Option (Nat × Nat)) : String × String :=
  match r with
  | none => ("??", "??")
  | some (u, t) =>
    (py_format_0f ((u : ℚ) / 1024 ^ 3) ++ "G", py_format_0f ((t : ℚ) / 1024 ^ 3) ++ "G")

/-- Function `get_docker_containers` from `motd.py` applied to the `docker ps` stdout;
`none` when docker is missing, errors or times out. -/
def get_docker_containers (r : Option String) : List String :=
  match r with
  | none => []
  | some out =>
    ((py_split '\n' (py_strip out)).map py_strip).filter (fun s => s != "")

/-- OS family dispatch of `get_system_services`. -/
inductive OSKind where
  | darwin
  | linux
  | other
deriving DecidableEq

/-- The system state probed by `get_system_services`:
`launchctl_lines` is the split `launchctl list` stdout (`none` when the call
raises); `line_has_word s l` abstracts the case-insensitive word-boundary
`re.search` of service `s` in line `l`; `systemctl_stdout s` is the
`systemctl is-active s` stdout (`none` when that call raises). -/
structure ServiceEnv where
  os : OSKind
  launchctl_lines : Option (List String)
  line_has_word : String → String → Bool
  systemctl_stdout : String → Option String

/-- One iteration of the Linux loop of `get_system_services`: keep the
service iff `systemctl is-active` ran and printed `active`. -/
def systemctl_active (env : ServiceEnv) (service : String) : Bool :=
  match env.systemctl_stdout service with
  | some out => py_strip out == "active"
  | none => false

/-- The body of `get_system_services` from `motd.py`, after
`monitored_services` has been read. -/
def get_system_services_from (env : ServiceEnv) (monitored_services : List String) :
    List String :=
  if monitored_services.isEmpty then []
  else
    match env.os with
    | .darwin =>
      match env.launchctl_lines with
      | none => []
      | some lines =>
        monitored_services.filter (fun s => lines.any (fun l => env.line_has_word s l))
    | .linux => monitored_services.filter (fun s => systemctl_active env s)
    | .other => []

/-- Function `get_system_services` from `motd.py`. -/
def get_system_services (env : ServiceEnv) (config_file : Option (List String)) :
    List String :=
  get_system_services_from env (get_monitored_services_list config_file)

/-! ## motd.py : version file and the banner -/

/-- State of the `VERSION` file for `get_franklin_version`: absent, present
but unreadable (`read_text` raises, e.g. `PermissionError`), or readable. -/
inductive FileState where
  | absent
  | unreadable
  | readable (content : String)
deriving DecidableEq

/-- Function `get_franklin_version` from `motd.py`.  The source checks `exists()` but
wraps `read_text()` in no `try`, so an existing unreadable file propagates the
`OSError` (modelled as `Except.error`). -/
def get_franklin_version : FileState → Except String String
  | .absent => .ok "unknown"
  | .readable c => .ok (py_strip c)
  | .unreadable => .error "OSError"

/-- Width clamping of `render_motd`:
`width = max(MOTD_MIN_WIDTH, min(width, MOTD_MAX_WIDTH))`. -/
def effective_width (requested : Nat) : Nat :=
  max MOTD_MIN_WIDTH (min requested MOTD_MAX_WIDTH)

/-- The horizontal rule of `render_motd`: `"─" * width`. -/
def hr (width : Nat) : String :=
  String.mk (List.replicate width '─')

/-- The right-aligned version tag of the header: `f"🐢 {version}"`. -/
def version_text (version : String) : String :=
  "🐢 " ++ version

/-- The left segment of the header: `f" > {hostname} ({ip})"`. -/
def header_left (hostname ip : String) : String :=
  " > " ++ hostname ++ " (" ++ ip ++ ")"

/-- The header padding of `render_motd`:
`width - current_len - len(version_text) - 1` (the extra `- 1` is the source's
"for emoji width" compensation), possibly negative. -/
def header_padding (width : Nat) (hostname ip version : String) : Int :=
  (width : Int) - (header_left hostname ip).length - (version_text version).length - 1

/-- The concatenated text of the header line of `render_motd`. -/
def header_line_str (width : Nat) (hostname ip version : String) : String :=
  header_left hostname ip
    ++ py_spaces (header_padding width hostname ip version)
    ++ version_text version

/-- The header line's styled spans, as built by `render_motd`. -/
def header_spans (width : Nat) (hostname ip version : String) (c : ColorDict) : MLine :=
  [(" > ", "white"),
   (hostname ++ " (" ++ ip ++ ")", c.light),
   (py_spaces (header_padding width hostname ip version), ""),
   (version_text version, c.base)]

/-- The unstyled `stats_text` string of `render_motd`, used for the
right-alignment arithmetic of the OS label. -/
def stats_text (disk_bar : String) (disk_pct : ℚ) (disk_used disk_total
    mem_used mem_total : String) : String :=
  "  " ++ disk_bar ++ " " ++ py_format_0f disk_pct ++ "% " ++ disk_used ++ "/"
    ++ disk_total ++ "               RAM " ++ mem_used ++ "/" ++ mem_total

/-- The stats line's styled spans, as built by `render_motd`. -/
def stats_spans (width : Nat) (disk_bar : String) (disk_pct : ℚ)
    (disk_used disk_total mem_used mem_total os_version : String)
    (c : ColorDict) : MLine :=
  let st := stats_text disk_bar disk_pct disk_used disk_total mem_used mem_total
  let os_padding : Int := (width : Int) - st.length - os_version.length
  [("  ", c.base),
   (disk_bar, c.light),
   (" " ++ py_format_0f disk_pct ++ "% " ++ disk_used ++ "/" ++ disk_total, c.base),
   ("               ", c.base),
   ("RAM ", c.light),
   (mem_used ++ "/" ++ mem_total, c.base),
   (py_spaces os_padding, ""),
   (os_version, c.light)]

/-- Everything `render_motd` observes about the machine. -/
structure MotdEnv where
  terminal_width : Nat
  version_file : FileState
  config_file : Option (List String)
  hostname_res : Option String
  ip_res : Option String
  os_env : OsEnv
  disk_raw : Option DiskRaw
  mem_raw : Option (Nat × Nat)
  docker_stdout : Option String
  svc : ServiceEnv

/-- The printed lines of `render_motd` once the version string is known
(an empty `MLine` is a blank `console.print()`). -/
def motd_body (env : MotdEnv) (version : String) : List MLine :=
  let width := effective_width env.terminal_width
  let c := (load_motd_color env.config_file).2
  let hostname := get_hostname env.hostname_res
  let ip := get_ip_address env.ip_res
  let os_version := get_os_version env.os_env
  let ds := get_disk_stats env.disk_raw
  let ms := get_memory_stats env.mem_raw
  let containers := get_docker_containers env.docker_stdout
  let services := get_system_services env.svc env.config_file
  let hrs := hr width
  [[(hrs, c.dark)],
   header_spans width hostname ip version c,
   [(hrs, c.dark)],
   stats_spans width ds.1 ds.2.1 ds.2.2.1 ds.2.2.2 ms.1 ms.2 os_version c,
   [(" " ++ hrs, c.dark)]]
  ++ (if containers.isEmpty then []
      else [[], [(" Docker Containers:", c.base)]] ++ format_grid containers width c.light)
  ++ (if services.isEmpty then []
      else [[], [(" Services:", c.base)]] ++ format_grid services width c.light)
  ++ (if containers.isEmpty && services.isEmpty then [] else [[]])

/-- Function `render_motd` from `motd.py`: an uncaught probe exception surfaces as
`Except.error`, otherwise the list of printed lines. -/
def render_motd (env : MotdEnv) : Except String (List MLine) :=
  match get_franklin_version env.version_file with
  | .error e => .error e
  | .ok version => .ok (motd_body env version)

/-- Exit code of the `motd` CLI command (`main.py`): `0` when `render_motd`
returns, nonzero (Python's traceback exit) when it raises. -/
def motd_exit (env : MotdEnv) : Nat :=
  match render_motd env with
  | .ok _ => 0
  | .error _ => 1

/-! ## main.py : the `config --color` command -/

/-- The two lines `config` writes:
`MOTD_COLOR_NAME="{name}"` and `MOTD_COLOR="{hex}"`. -/
def config_file_lines (color_name hex_color : String) : List String :=
  ["MOTD_COLOR_NAME=\"" ++ color_name ++ "\"",
   "MOTD_COLOR=\"" ++ hex_color ++ "\""]

/-- The `--color` branch of the `config` command (`main.py`): returns the
process exit code and the config file afterwards.  A known palette name or any
7-character string starting with `#` is accepted and the file overwritten;
anything else exits 1 leaving the file untouched. -/
def config_color (color : String) (config_file : Option (List String)) :
    Nat × Option (List String) :=
  match CAMPFIRE_COLORS.lookup color with
  | some d => (0, some (config_file_lines color d.base))
  | none =>
    if py_starts_with color "#" && color.length == 7 then
      (0, some (config_file_lines "custom" color))
    else (1, config_file)

/-! ## Spec-side definition (for the refinement claims about color tokens) -/

/-- ASCII hexadecimal digit. -/
def is_hex_digit (c : Char) : Bool :=
  ('0' ≤ c && c ≤ '9') || ('a' ≤ c && c ≤ 'f') || ('A' ≤ c && c ≤ 'F')

/-- Modelled from the spec's words, for comparison with the code's check:
"a strict 7-character `#rrggbb` pattern" — `#` followed by six hex digits. -/
def spec_strict_hex (s : String) : Bool :=
  match s.data with
  | '#' :: rest => rest.length == 6 && rest.all is_hex_digit
  | _ => false

/-! ## Concrete demonstration environments -/

/-- A Linux service environment where only `nginx` reports `active`. -/
def svc_env_demo : ServiceEnv :=
  ⟨.linux, none, fun _ _ => false,
    fun s => if s == "nginx" then some "active" else some "inactive"⟩

/-- A machine with no config file where every external probe fails
(no docker, no systemctl, no network route) and no `VERSION` file. -/
def motd_env_all_failing : MotdEnv :=
  ⟨80, .absent, none, none, none, .otherSys "Plan9", none, none, none,
    ⟨.other, none, fun _ _ => false, fun _ => none⟩⟩

/-- The same machine with an existing but unreadable `VERSION` file. -/
def motd_env_unreadable : MotdEnv :=
  ⟨80, .unreadable, none, none, none, .otherSys "Plan9", none, none, none,
    ⟨.other, none, fun _ _ => false, fun _ => none⟩⟩

/-! ## Helper lemmas -/

theorem string_length_data (s : String) : s.length = s.data.length := rfl

theorem string_length_mk (l : List Char) : (String.mk l).length = l.length := rfl

theorem string_data_append (a b : String) : (a ++ b).data = a.data ++ b.data :=
  String.data_append a b

theorem string_length_append (a b : String) : (a ++ b).length = a.length + b.length := by
  show (a ++ b).data.length = a.data.length + b.data.length
  rw [string_data_append, List.length_append]

theorem py_spaces_length (n : Int) : (py_spaces n).length = n.toNat := by
  simp [py_spaces, string_length_mk]

theorem hr_length (w : Nat) : (hr w).length = w := by
  simp [hr, string_length_mk]

/-- A prefix check against `a ++ b` fails whenever `pre` and `a` already
disagree (neither is a prefix of the other). -/
theorem isPrefixOf_append_false (pre a b : List Char)
    (h1 : pre.isPrefixOf a = false) (h2 : a.isPrefixOf pre = false) :
    pre.isPrefixOf (a ++ b) = false := by
  rw [Bool.eq_false_iff]
  intro hc
  have hpre : pre <+: a ++ b := List.isPrefixOf_iff_prefix.mp hc
  have ha : a <+: a ++ b := ⟨b, rfl⟩
  rcases List.prefix_or_prefix_of_prefix hpre ha with h | h
  · rw [(List.isPrefixOf_iff_prefix.mpr h : pre.isPrefixOf a = true)] at h1
    exact Bool.true_eq_false.mp h1
  · rw [(List.isPrefixOf_iff_prefix.mpr h : a.isPrefixOf pre = true)] at h2
    exact Bool.true_eq_false.mp h2

/-- Equation: `py_strip` written through Mathlib's `rdropWhile`. -/
theorem py_strip_list_eq (l : List Char) :
    py_strip_list l = List.rdropWhile py_is_space (l.dropWhile py_is_space) := rfl

theorem head?_dropWhile_false (p : α → Bool) : ∀ (l : List α) (x : α),
    (l.dropWhile p).head? = some x → p x = false
  | [], x, hx => by simp at hx
  | y :: ys, x, hx => by
    rw [List.dropWhile_cons] at hx
    cases hp : p y with
    | true => rw [if_pos (by simp [hp])] at hx; exact head?_dropWhile_false p ys x hx
    | false =>
      rw [if_neg (by simp [hp])] at hx
      simp only [List.head?_cons, Option.some.injEq] at hx
      rwa [← hx]

theorem py_strip_list_idem (l : List Char) :
    py_strip_list (py_strip_list l) = py_strip_list l := by
  rw [py_strip_list_eq, py_strip_list_eq]
  rcases h : List.rdropWhile py_is_space (l.dropWhile py_is_space) with _ | ⟨x, xs⟩
  · simp [List.rdropWhile_nil]
  · have hpre : (x :: xs) <+: l.dropWhile py_is_space := by
      rw [← h]; exact List.rdropWhile_prefix _ _
    obtain ⟨t, ht⟩ := hpre
    have hx : py_is_space x = false := by
      refine head?_dropWhile_false py_is_space l x ?_
      rw [← ht]; simp
    rw [List.dropWhile_cons, if_neg (by simp [hx])]
    rw [← h, List.rdropWhile_idempotent]

theorem py_strip_idem (s : String) : py_strip (py_strip s) = py_strip s := by
  simp [py_strip, py_strip_list_idem]

theorem py_chunks_cons (m : Nat) (x : α) (xs : List α) :
    py_chunks (m + 1) (x :: xs) =
      (x :: xs).take (m + 1) :: py_chunks (m + 1) (xs.drop m) := by
  rw [py_chunks]

theorem py_chunks_nil (n : Nat) : py_chunks n ([] : List α) = [] := by
  rw [py_chunks]

theorem py_chunks_flatten (m : Nat) : ∀ l : List α, (py_chunks (m + 1) l).flatten = l
  | [] => by rw [py_chunks_nil]; rfl
  | x :: xs => by
    rw [py_chunks_cons, List.flatten_cons, py_chunks_flatten m (xs.drop m),
      List.take_succ_cons, List.cons_append, List.take_append_drop]
termination_by l => l.length
decreasing_by simp [List.length_drop]; omega

theorem py_chunks_length (m : Nat) : ∀ l : List α,
    (py_chunks (m + 1) l).length = (l.length + m) / (m + 1)
  | [] => by
    rw [py_chunks_nil]
    simp [Nat.div_eq_of_lt (by omega : m < m + 1)]
  | x :: xs => by
    rw [py_chunks_cons]
    simp only [List.length_cons]
    rw [py_chunks_length m (xs.drop m), List.length_drop]
    rw [show xs.length + 1 + m = xs.length + (m + 1) by omega,
      Nat.add_div_right _ (Nat.succ_pos m)]
    rcases le_or_lt m xs.length with h | h
    · rw [show xs.length - m + m = xs.length by omega]
    · rw [show xs.length - m + m = m by omega,
        Nat.div_eq_of_lt (by omega), Nat.div_eq_of_lt (by omega)]
termination_by l => l.length
decreasing_by simp [List.length_drop]; omega

theorem py_chunks_getD_length (m : Nat) : ∀ (l : List α) (i : Nat),
    i + 1 < (py_chunks (m + 1) l).length →
    ((py_chunks (m + 1) l).getD i []).length = m + 1
  | [], i, h => by rw [py_chunks_nil] at h; simp at h
  | x :: xs, 0, h => by
    rw [py_chunks_cons] at h ⊢
    simp only [List.getD_cons_zero]
    have hrest : py_chunks (m + 1) (xs.drop m) ≠ [] := by
      intro he; rw [he] at h; simp at h
    have hd : xs.drop m ≠ [] := by
      intro he; rw [he, py_chunks_nil] at hrest; exact hrest rfl
    have hm : m < xs.length := by
      by_contra hc
      exact hd (List.drop_eq_nil_of_le (by omega))
    rw [List.length_take]
    simp only [List.length_cons]
    omega
  | x :: xs, i + 1, h => by
    rw [py_chunks_cons] at h ⊢
    simp only [List.getD_cons_succ]
    exact py_chunks_getD_length m (xs.drop m) i (by simpa using h)
termination_by l => l.length
decreasing_by simp [List.length_drop]; omega

/-! ## Claim C1 -/

/-- Claim C1: for every percent `p` in `[0, 100]`,
`create_progress_bar p (width := 10)` is `"|"`, then `f` solid block glyphs
and `10 - f` light block glyphs with `f = ⌊p / 100 * 10⌋`, then `"|"`; in
particular `p = 0, 50, 100` give the three expected bars. -/
theorem create_progress_bar_spec :
    (∀ p : ℚ, 0 ≤ p → p ≤ 100 →
      create_progress_bar p 10 =
        "|" ++ String.mk (List.replicate (⌊p / 100 * 10⌋).toNat '█')
            ++ String.mk (List.replicate (10 - (⌊p / 100 * 10⌋).toNat) '░') ++ "|") ∧
    create_progress_bar 0 10 = "|░░░░░░░░░░|" ∧
    create_progress_bar 50 10 = "|█████░░░░░|" ∧
    create_progress_bar 100 10 = "|██████████|" := by
  have general : ∀ p : ℚ, 0 ≤ p → p ≤ 100 →
      create_progress_bar p 10 =
        "|" ++ String.mk (List.replicate (⌊p / 100 * 10⌋).toNat '█')
            ++ String.mk (List.replicate (10 - (⌊p / 100 * 10⌋).toNat) '░') ++ "|" := by
    intro p h0 h1
    have hq : (0 : ℚ) ≤ p / 100 * 10 := by positivity
    have hf0 : (0 : Int) ≤ ⌊p / 100 * 10⌋ := Int.floor_nonneg.2 hq
    have hf10 : ⌊p / 100 * 10⌋ ≤ 10 := by
      have hle : p / 100 * 10 ≤ 10 := by nlinarith
      calc ⌊p / 100 * 10⌋ ≤ ⌊(10 : ℚ)⌋ := Int.floor_le_floor hle
        _ = 10 := by norm_num
    show "|" ++ String.mk (List.replicate (py_int (p / 100 * ((10 : Nat) : ℚ))).toNat '█')
        ++ String.mk (List.replicate (((10 : Nat) : Int)
            - py_int (p / 100 * ((10 : Nat) : ℚ))).toNat '░') ++ "|" = _
    rw [py_int, if_pos (by push_cast; exact hq)]
    push_cast
    rw [show ((10 : Int) - ⌊p / 100 * 10⌋).toNat = 10 - (⌊p / 100 * 10⌋).toNat by omega]
  refine ⟨general, ?_, ?_, ?_⟩
  · rw [general 0 le_rfl (by norm_num), show ⌊(0 : ℚ) / 100 * 10⌋ = 0 by norm_num]
    decide
  · rw [general 50 (by norm_num) (by norm_num),
      show ⌊(50 : ℚ) / 100 * 10⌋ = 5 by norm_num]
    decide
  · rw [general 100 (by norm_num) (by norm_num),
      show ⌊(100 : ℚ) / 100 * 10⌋ = 10 by norm_num]
    decide

/-- Witness for C1 at `p = 70`. -/
theorem create_progress_bar_spec_witness :
    (0 : ℚ) ≤ 70 ∧ (70 : ℚ) ≤ 100 ∧ create_progress_bar 70 10 = "|███████░░░|" := by
  refine ⟨by norm_num, by norm_num, ?_⟩
  rw [create_progress_bar_spec.1 70 (by norm_num) (by norm_num),
    show ⌊(70 : ℚ) / 100 * 10⌋ = 7 by norm_num]
  decide

/-! ## Claim C2 (corrected) -/

/-- Counterexample to C2 as stated: at effective width 40 (requested 40, no
overlap: the padding is nonnegative) the header line's character length is 39,
not 40 — the source subtracts one extra padding space "for emoji width", and
the bottom border `" " + hr` is 41 characters. -/
theorem header_width_counterexample :
    0 ≤ header_padding (effective_width 40) "h" "1.2.3.4" "1.0.0" ∧
    effective_width 40 = 40 ∧
    (hr (effective_width 40)).length = 40 ∧
    (header_line_str (effective_width 40) "h" "1.2.3.4" "1.0.0").length ≠ 40 ∧
    (" " ++ hr (effective_width 40)).length ≠ 40 := by
  refine ⟨by decide, by decide, by decide, by decide, by decide⟩

/-- Claim C2 (amended): the layout uses effective width
`clamp(requested, 40, 80)`; at every effective width `w` the top and middle
horizontal rules have character length exactly `w`, while — whenever the two
header segments do not collide (nonnegative padding) — the header line has
character length exactly `w - 1` (the source pads one space short to
compensate the two-column emoji) and the bottom border has length `w + 1`
(it is printed with a leading space). -/
theorem layout_width_amended (requested : Nat) (hostname ip version : String)
    (hpad : 0 ≤ header_padding (effective_width requested) hostname ip version) :
    MOTD_MIN_WIDTH ≤ effective_width requested ∧
    effective_width requested ≤ MOTD_MAX_WIDTH ∧
    (MOTD_MIN_WIDTH ≤ requested → requested ≤ MOTD_MAX_WIDTH →
      effective_width requested = requested) ∧
    (hr (effective_width requested)).length = effective_width requested ∧
    (header_line_str (effective_width requested) hostname ip version).length
      = effective_width requested - 1 ∧
    (" " ++ hr (effective_width requested)).length = effective_width requested + 1 := by
  refine ⟨?_, ?_, ?_, hr_length _, ?_, ?_⟩
  · simp only [effective_width, MOTD_MIN_WIDTH, MOTD_MAX_WIDTH]; omega
  · simp only [effective_width, MOTD_MIN_WIDTH, MOTD_MAX_WIDTH]; omega
  · intro h1 h2
    simp only [effective_width, MOTD_MIN_WIDTH, MOTD_MAX_WIDTH] at h1 h2 ⊢
    omega
  · rw [header_line_str, string_length_append, string_length_append, py_spaces_length]
    rw [header_padding] at hpad ⊢
    omega
  · rw [string_length_append, hr_length]
    have h1 : (" " : String).length = 1 := by decide
    omega

/-- Witness for the amended C2 at requested width 80. -/
theorem layout_width_amended_witness :
    0 ≤ header_padding (effective_width 80) "host" "10.0.0.5" "2.0.0" ∧
    (hr (effective_width 80)).length = 80 ∧
    (header_line_str (effective_width 80) "host" "10.0.0.5" "2.0.0").length = 79 ∧
    (" " ++ hr (effective_width 80)).length = 81 := by
  have h := layout_width_amended 80 "host" "10.0.0.5" "2.0.0" (by decide)
  have hw : effective_width 80 = 80 := by decide
  refine ⟨by decide, ?_, ?_, ?_⟩
  · rw [h.2.2.2.1, hw]
  · rw [h.2.2.2.2.1, hw]
  · rw [h.2.2.2.2.2, hw]

/-! ## Claim C3 -/

/-- Claim C3: grid packing at width 80 and `max_item_width` 22 puts
`max(1, (80 - 1) // 22) = 3` items per row, producing `⌈N / 3⌉` rows
(`(N + 2) / 3` in natural division), every row but the last holding exactly
3 items, and the rows concatenated in order give back the items; `format_grid`
renders exactly one line per row. -/
theorem format_grid_packing_spec (items : List String) (hne : items ≠ []) :
    max 1 ((80 - 1) / 22) = 3 ∧
    (format_grid_chunks items 80 22).length = (items.length + 2) / 3 ∧
    (∀ i, i + 1 < (format_grid_chunks items 80 22).length →
      ((format_grid_chunks items 80 22).getD i []).length = 3) ∧
    (format_grid_chunks items 80 22).flatten = items ∧
    (format_grid items 80 "light" 22).length = (items.length + 2) / 3 := by
  have h3 : max 1 ((80 - 1) / 22) = 3 := by norm_num
  have hchunks : format_grid_chunks items 80 22 = py_chunks 3 items := by
    rw [format_grid_chunks, if_neg (by simpa [List.isEmpty_iff] using hne), h3]
  refine ⟨h3, ?_, ?_, ?_, ?_⟩
  · rw [hchunks]; exact py_chunks_length 2 items
  · intro i hi
    rw [hchunks] at hi ⊢
    exact py_chunks_getD_length 2 items i hi
  · rw [hchunks]; exact py_chunks_flatten 2 items
  · rw [format_grid, List.length_map, hchunks]
    exact py_chunks_length 2 items

/-- Witness for C3 on a four-item list: two rows that flatten back to the
original list. -/
theorem format_grid_packing_spec_witness :
    (["a", "b", "c", "d"] : List String) ≠ [] ∧
    (format_grid_chunks ["a", "b", "c", "d"] 80 22).length = 2 ∧
    (format_grid_chunks ["a", "b", "c", "d"] 80 22).flatten = ["a", "b", "c", "d"] := by
  have h := format_grid_packing_spec ["a", "b", "c", "d"] (by decide)
  exact ⟨by decide, h.2.1.trans (by norm_num), h.2.2.2.1⟩

/-! ## Claim C4 -/

/-- Every entry produced by the `MONITORED_SERVICES` parser is already
whitespace-trimmed and nonempty. -/
theorem monitored_from_lines_trimmed (lines : List String) :
    ∀ s ∈ monitored_from_lines lines, py_strip s = s ∧ s ≠ "" := by
  induction lines with
  | nil => intro s hs; simp [monitored_from_lines] at hs
  | cons line rest ih =>
    intro s hs
    rw [monitored_from_lines] at hs
    by_cases hstart : py_starts_with line "MONITORED_SERVICES=" = true
    · rw [if_pos hstart] at hs
      simp only [List.mem_filter, List.mem_map] at hs
      obtain ⟨⟨y, _, hy⟩, hne⟩ := hs
      constructor
      · rw [← hy]; exact py_strip_idem y
      · intro he; rw [he] at hne; simp at hne
    · rw [if_neg hstart] at hs
      exact ih s hs

/-- Claim C4: `get_monitored_services_list` returns `[]` when the file is
absent/unreadable or no line carries the key; entries are comma-split,
whitespace-trimmed, with empties dropped; on a config file holding
`MONITORED_SERVICES="a, b ,c"` it returns `["a", "b", "c"]`. -/
theorem monitored_services_parse_spec :
    get_monitored_services_list none = [] ∧
    (∀ lines, (∀ l ∈ lines, py_starts_with l "MONITORED_SERVICES=" = false) →
      get_monitored_services_list (some lines) = []) ∧
    (∀ config_file, ∀ s ∈ get_monitored_services_list config_file,
      py_strip s = s ∧ s ≠ "") ∧
    get_monitored_services_list (some ["MONITORED_SERVICES=\"a, b ,c\""])
      = ["a", "b", "c"] := by
  refine ⟨rfl, ?_, ?_, by decide⟩
  · intro lines h
    show monitored_from_lines lines = []
    induction lines with
    | nil => rfl
    | cons line rest ih =>
      rw [monitored_from_lines,
        if_neg (by rw [h line (by simp)]; exact Bool.false_ne_true)]
      exact ih (fun l hl => h l (by simp [hl]))
  · intro config_file s hs
    match config_file with
    | none => simp [get_monitored_services_list] at hs
    | some lines => exact monitored_from_lines_trimmed lines s hs

/-- Witness for C4 on a file whose value needs trimming and empty-dropping. -/
theorem monitored_services_parse_spec_witness :
    get_monitored_services_list (some ["MONITORED_SERVICES=\"a, b ,c\""])
        = ["a", "b", "c"] ∧
    get_monitored_services_list (some ["OTHER_KEY=\"x\""]) = [] := by
  constructor
  · exact monitored_services_parse_spec.2.2.2
  · exact monitored_services_parse_spec.2.1 ["OTHER_KEY=\"x\""] (by decide)

/-! ## Claim C5 (corrected) -/

/-- Counterexample to C5 as stated: `"#zzzzzz"` is neither a palette name nor
a strict `#rrggbb` hex string, yet `config --color "#zzzzzz"` exits 0 and
overwrites the config file — the source only checks `startswith("#")` and the
length, never the hex digits. -/
theorem invalid_color_accepted_counterexample :
    spec_strict_hex "#zzzzzz" = false ∧
    CAMPFIRE_COLORS.lookup "#zzzzzz" = none ∧
    (config_color "#zzzzzz" (some ["MONITORED_SERVICES=\"nginx\""])).1 = 0 ∧
    (config_color "#zzzzzz" (some ["MONITORED_SERVICES=\"nginx\""])).2 ≠
      some ["MONITORED_SERVICES=\"nginx\""] := by
  refine ⟨by decide, by decide, by decide, by decide⟩

/-- Claim C5 (amended): for every color token that is neither a known palette
name nor a 7-character string beginning with `#` (the code's actual check —
hex digits are not validated), `config --color` exits 1 and leaves the config
file untouched. -/
theorem config_rejects_invalid_amended (color : String) (file : Option (List String))
    (h1 : CAMPFIRE_COLORS.lookup color = none)
    (h2 : ¬(py_starts_with color "#" = true ∧ color.length = 7)) :
    (config_color color file).1 = 1 ∧ (config_color color file).2 = file := by
  have hc : (py_starts_with color "#" && color.length == 7) = false := by
    rcases Bool.eq_false_or_eq_true (py_starts_with color "#" && color.length == 7)
      with h | h
    · exact absurd (by rwa [Bool.and_eq_true, beq_iff_eq] at h) h2
    · exact h
  simp only [config_color, h1, hc]
  exact ⟨rfl, rfl⟩

/-- Witness for the amended C5 at the spec's own example token `"BadName"`. -/
theorem config_rejects_invalid_amended_witness :
    (config_color "BadName" (some ["MONITORED_SERVICES=\"nginx\""])).1 = 1 ∧
    (config_color "BadName" (some ["MONITORED_SERVICES=\"nginx\""])).2 =
      some ["MONITORED_SERVICES=\"nginx\""] :=
  config_rejects_invalid_amended "BadName" (some ["MONITORED_SERVICES=\"nginx\""])
    (by decide) (by decide)

/-! ## Claim C6 (corrected) -/

/-- Counterexample to C6 as stated: after `config --color "#abcdef"` the
program's color loader does not return a palette named `"custom"` with all
variants `"#abcdef"`; `load_motd_color` does not recognize `"custom"` and
falls back to the default `"Cello"` palette, so the custom palette is not
what the program uses. -/
theorem custom_color_unused_counterexample :
    spec_strict_hex "#abcdef" = true ∧
    (config_color "#abcdef" none).1 = 0 ∧
    (load_motd_color (config_color "#abcdef" none).2).1 = "Cello" ∧
    (load_motd_color (config_color "#abcdef" none).2).1 ≠ "custom" ∧
    (load_motd_color (config_color "#abcdef" none).2).2 ≠
      ⟨"#abcdef", "#abcdef", "#abcdef"⟩ := by
  refine ⟨by decide, by decide, by decide, by decide, by decide⟩

/-- Loading the config written for a custom hex always yields the default
palette: the stored name `"custom"` is not a `CAMPFIRE_COLORS` key. -/
theorem load_motd_color_custom (hex : String) :
    load_motd_color (some (config_file_lines "custom" hex)) =
      ("Cello", ⟨"#607a97", "#3d4f63", "#a3bdd4"⟩) := by
  have hname : color_name_from_lines (config_file_lines "custom" hex) = some "custom" := by
    rw [config_file_lines, color_name_from_lines, if_pos (by decide)]
    congr 1
  simp only [load_motd_color, hname]
  decide

/-- Claim C6 (amended): a 7-character `#`-token is accepted; the config file
then stores the name `"custom"` and that single hex (no shade derivation),
but the MOTD loader falls back to the default palette — the stored custom
hex is not the palette the MOTD uses. -/
theorem custom_color_stored_amended (color : String) (file : Option (List String))
    (h1 : CAMPFIRE_COLORS.lookup color = none)
    (h2 : py_starts_with color "#" = true) (h3 : color.length = 7) :
    (config_color color file).1 = 0 ∧
    (config_color color file).2 = some (config_file_lines "custom" color) ∧
    load_motd_color (config_color color file).2 =
      (DEFAULT_CAMPFIRE_COLOR, ⟨"#607a97", "#3d4f63", "#a3bdd4"⟩) := by
  have hc : (py_starts_with color "#" && color.length == 7) = true := by
    rw [Bool.and_eq_true, beq_iff_eq]; exact ⟨h2, h3⟩
  simp only [config_color, h1, hc, if_true]
  exact ⟨by trivial, by trivial, load_motd_color_custom color⟩

/-- Witness for the amended C6 at `"#abcdef"`. -/
theorem custom_color_stored_amended_witness :
    (config_color "#abcdef" none).1 = 0 ∧
    (config_color "#abcdef" none).2 = some (config_file_lines "custom" "#abcdef") ∧
    load_motd_color (config_color "#abcdef" none).2 =
      (DEFAULT_CAMPFIRE_COLOR, ⟨"#607a97", "#3d4f63", "#a3bdd4"⟩) :=
  custom_color_stored_amended "#abcdef" none (by decide) (by decide) (by decide)

/-! ## Claim C7 -/

/-- The name-selection step of `load_motd_color` always lands on a table key:
the returned dict is the table entry of the returned name. -/
theorem resolve_color_table (c0 : String) :
    CAMPFIRE_COLORS.lookup (if (CAMPFIRE_COLORS.lookup c0).isSome then c0
        else DEFAULT_CAMPFIRE_COLOR) =
      some ((CAMPFIRE_COLORS.lookup (if (CAMPFIRE_COLORS.lookup c0).isSome then c0
        else DEFAULT_CAMPFIRE_COLOR)).getD ⟨"", "", ""⟩) := by
  rcases h : CAMPFIRE_COLORS.lookup c0 with _ | d
  · rw [if_neg (by simp [h])]
    decide
  · rw [if_pos (by simp [h]), h]
    rfl

/-- An unknown stored name falls back to the default name. -/
theorem resolve_color_unknown (c0 : String) (h : CAMPFIRE_COLORS.lookup c0 = none) :
    (if (CAMPFIRE_COLORS.lookup c0).isSome then c0 else DEFAULT_CAMPFIRE_COLOR)
      = DEFAULT_CAMPFIRE_COLOR := by
  rw [if_neg (by simp [h])]

/-- The first component of `load_motd_color`, unfolded. -/
theorem load_motd_color_fst (config_file : Option (List String)) :
    (load_motd_color config_file).1 =
      (let c0 := match config_file with
        | none => DEFAULT_CAMPFIRE_COLOR
        | some lines => (color_name_from_lines lines).getD DEFAULT_CAMPFIRE_COLOR
       if (CAMPFIRE_COLORS.lookup c0).isSome then c0 else DEFAULT_CAMPFIRE_COLOR) := rfl

/-- Claim C7: `load_motd_color` is total (the embedding returns on every
input); an absent/unreadable file yields the default name, a missing or
unrecognized stored name silently falls back to the default name, and in
every case the returned palette triple is the table entry of the returned
name. -/
theorem load_motd_color_total_spec (config_file : Option (List String)) :
    CAMPFIRE_COLORS.lookup (load_motd_color config_file).1
      = some (load_motd_color config_file).2 ∧
    (config_file = none → (load_motd_color config_file).1 = DEFAULT_CAMPFIRE_COLOR) ∧
    (∀ lines, config_file = some lines →
      (∀ n, color_name_from_lines lines = some n → CAMPFIRE_COLORS.lookup n = none) →
      (load_motd_color config_file).1 = DEFAULT_CAMPFIRE_COLOR) := by
  refine ⟨resolve_color_table _, ?_, ?_⟩
  · rintro rfl; decide
  · rintro lines rfl h
    rw [load_motd_color_fst]
    simp only
    rcases hn : color_name_from_lines lines with _ | n
    · simp only [Option.getD_none]
      decide
    · simp only [Option.getD_some]
      exact resolve_color_unknown n (h n hn)

/-- Witness for C7 on a config file storing an unrecognized color name. -/
theorem load_motd_color_total_spec_witness :
    CAMPFIRE_COLORS.lookup (load_motd_color (some ["MOTD_COLOR_NAME=\"Nope\""])).1
      = some (load_motd_color (some ["MOTD_COLOR_NAME=\"Nope\""])).2 ∧
    (load_motd_color (some ["MOTD_COLOR_NAME=\"Nope\""])).1
      = DEFAULT_CAMPFIRE_COLOR := by
  have h := load_motd_color_total_spec (some ["MOTD_COLOR_NAME=\"Nope\""])
  refine ⟨h.1, h.2.2 _ rfl ?_⟩
  intro n hn
  rw [show color_name_from_lines ["MOTD_COLOR_NAME=\"Nope\""] = some "Nope"
    from by decide] at hn
  cases hn
  decide

/-! ## Claim C8 -/

/-- Claim C8: for every system state and monitored list, the running-services
probe returns a subsequence of the monitored list — only monitored candidates
are ever reported, a service outside the list never appears even if running,
and an empty monitored list yields an empty result; the same holds for the
full `get_system_services` over any config file. -/
theorem services_sublist_spec (env : ServiceEnv) (monitored : List String) :
    (get_system_services_from env monitored).Sublist monitored ∧
    (∀ s ∈ get_system_services_from env monitored, s ∈ monitored) ∧
    (monitored = [] → get_system_services_from env monitored = []) ∧
    (∀ config_file, (get_system_services env config_file).Sublist
      (get_monitored_services_list config_file)) := by
  have main : ∀ (e : ServiceEnv) (m : List String),
      (get_system_services_from e m).Sublist m := by
    intro e m
    obtain ⟨os, ll, lhw, sc⟩ := e
    cases os with
    | darwin =>
      cases ll with
      | none =>
        simp only [get_system_services_from]
        split
        · exact List.nil_sublist m
        · exact List.nil_sublist m
      | some lines =>
        simp only [get_system_services_from]
        split
        · exact List.nil_sublist m
        · exact List.filter_sublist m
    | linux =>
      simp only [get_system_services_from]
      split
      · exact List.nil_sublist m
      · exact List.filter_sublist m
    | other =>
      simp only [get_system_services_from]
      split
      · exact List.nil_sublist m
      · exact List.nil_sublist m
  refine ⟨main env monitored, ?_, ?_, ?_⟩
  · intro s hs
    exact (main env monitored).subset hs
  · rintro rfl
    exact List.sublist_nil.mp (main env [])
  · intro config_file
    exact main env (get_monitored_services_list config_file)

/-- Witness for C8: on a Linux box where only `nginx` is active, monitoring
`["nginx", "redis"]` reports exactly `["nginx"]`, a subsequence. -/
theorem services_sublist_spec_witness :
    (get_system_services_from svc_env_demo ["nginx", "redis"]).Sublist
      ["nginx", "redis"] ∧
    get_system_services_from svc_env_demo ["nginx", "redis"] = ["nginx"] :=
  ⟨(services_sublist_spec svc_env_demo ["nginx", "redis"]).1, by decide⟩

/-! ## Claim C9 (corrected) -/

/-- Counterexample to C9 as stated: `motd` does not always exit 0 — with an
existing but unreadable `VERSION` file, `get_franklin_version` raises
(`read_text` has no `try`) and the command exits nonzero. -/
theorem motd_exit_counterexample :
    motd_env_unreadable.version_file = FileState.unreadable ∧
    motd_exit motd_env_unreadable = 1 ∧
    motd_exit motd_env_unreadable ≠ 0 :=
  ⟨rfl, by decide, by decide⟩

/-- Claim C9 (amended): whenever the `VERSION` file is not in the
existing-but-unreadable state, `motd` exits 0; the banner renders (its first
line is the horizontal rule in the loaded palette's dark tone), with no
config file the default `Cello` palette is used, and each probe failure is
swallowed into its documented placeholder (`"unknown"`, `"0.0.0.0"`,
`"??"`/zero disk stats, empty container list). -/
theorem motd_exit_amended (env : MotdEnv)
    (h : env.version_file ≠ FileState.unreadable) :
    motd_exit env = 0 ∧
    (∃ ls, render_motd env = Except.ok ls ∧
      ls.head? = some [(hr (effective_width env.terminal_width),
        (load_motd_color env.config_file).2.dark)]) ∧
    (env.config_file = none →
      load_motd_color env.config_file
        = (DEFAULT_CAMPFIRE_COLOR, ⟨"#607a97", "#3d4f63", "#a3bdd4"⟩)) ∧
    get_hostname none = "unknown" ∧
    get_ip_address none = "0.0.0.0" ∧
    get_disk_stats none = ("|??????????|", 0, "??", "??") ∧
    get_memory_stats none = ("??", "??") ∧
    get_docker_containers none = [] := by
  obtain ⟨v, hv⟩ : ∃ v, get_franklin_version env.version_file = .ok v := by
    cases hver : env.version_file with
    | absent => exact ⟨"unknown", rfl⟩
    | unreadable => exact absurd hver h
    | readable c => exact ⟨py_strip c, by rw [get_franklin_version]⟩
  have hrender : render_motd env = .ok (motd_body env v) := by
    rw [render_motd, hv]
  refine ⟨?_, ⟨motd_body env v, hrender, ?_⟩, ?_, rfl, rfl, rfl, rfl, rfl⟩
  · rw [motd_exit, hrender]
  · rw [motd_body]
    simp only [List.cons_append, List.head?_cons]
  · intro hc
    rw [hc]
    decide

/-- Witness for the amended C9: a machine with no config file, no docker, no
systemctl, no network and every other probe failing still renders with the
default palette and exits 0. -/
theorem motd_exit_amended_witness :
    motd_env_all_failing.version_file ≠ FileState.unreadable ∧
    motd_exit motd_env_all_failing = 0 ∧
    load_motd_color motd_env_all_failing.config_file
      = (DEFAULT_CAMPFIRE_COLOR, ⟨"#607a97", "#3d4f63", "#a3bdd4"⟩) := by
  have h := motd_exit_amended motd_env_all_failing (by decide)
  exact ⟨by decide, h.1, h.2.2.1 rfl⟩

/-! ## Claim C10 -/

/-- A prefix test against `lit ++ mid ++ tail` fails once `lit` and the key
already disagree, whatever `mid` and `tail` are. -/
theorem starts_mono_false (lit mid tail : String)
    (h1 : ("MONITORED_SERVICES=").data.isPrefixOf lit.data = false)
    (h2 : lit.data.isPrefixOf ("MONITORED_SERVICES=").data = false) :
    py_starts_with (lit ++ mid ++ tail) "MONITORED_SERVICES=" = false := by
  rw [py_starts_with, string_data_append, string_data_append, List.append_assoc]
  exact isPrefixOf_append_false _ _ _ h1 h2

/-- Neither of the two lines `config` writes carries the
`MONITORED_SERVICES=` key, so the services list read back is empty. -/
theorem config_file_lines_no_monitored (name hex : String) :
    get_monitored_services_list (some (config_file_lines name hex)) = [] := by
  show monitored_from_lines (config_file_lines name hex) = []
  rw [config_file_lines, monitored_from_lines,
    if_neg (by
      rw [starts_mono_false "MOTD_COLOR_NAME=\"" name "\"" (by decide) (by decide)]
      exact Bool.false_ne_true),
    monitored_from_lines,
    if_neg (by
      rw [starts_mono_false "MOTD_COLOR=\"" hex "\"" (by decide) (by decide)]
      exact Bool.false_ne_true)]
  rfl

/-- Shape of a token matching the spec's strict `#rrggbb` pattern. -/
theorem spec_strict_hex_shape (color : String) (h : spec_strict_hex color = true) :
    ∃ rest, color.data = '#' :: rest ∧ rest.length = 6 := by
  rw [spec_strict_hex] at h
  split at h
  · next rest heq =>
    rw [Bool.and_eq_true, beq_iff_eq] at h
    exact ⟨rest, heq, h.1⟩
  · exact absurd h Bool.false_ne_true

/-- A strict hex token passes the code's acceptance check. -/
theorem spec_strict_hex_accepted (color : String) (h : spec_strict_hex color = true) :
    py_starts_with color "#" = true ∧ color.length = 7 := by
  obtain ⟨rest, hd, hlen⟩ := spec_strict_hex_shape color h
  constructor
  · rw [py_starts_with, hd]
    show List.isPrefixOf ['#'] ('#' :: rest) = true
    simp [List.isPrefixOf]
  · rw [string_length_data, hd]
    simp [hlen]

/-- Two strings whose first characters differ are not `==`. -/
theorem beq_false_of_head_ne (color nm : String)
    (h : color.data.head? ≠ nm.data.head?) : (color == nm) = false := by
  rw [beq_eq_false_iff_ne]
  intro he
  exact h (he ▸ rfl)

/-- No palette name starts with `#`, so a `#`-token is never a table key. -/
theorem lookup_hash_none (color : String) (rest : List Char)
    (hd : color.data = '#' :: rest) :
    CAMPFIRE_COLORS.lookup color = none := by
  have hh : color.data.head? = some '#' := by rw [hd]; rfl
  simp only [CAMPFIRE_COLORS, List.lookup,
    beq_false_of_head_ne color "Cello" (by rw [hh]; decide),
    beq_false_of_head_ne color "Terracotta" (by rw [hh]; decide),
    beq_false_of_head_ne color "Black Rock" (by rw [hh]; decide),
    beq_false_of_head_ne color "Sage" (by rw [hh]; decide),
    beq_false_of_head_ne color "Golden Amber" (by rw [hh]; decide),
    beq_false_of_head_ne color "Flamingo" (by rw [hh]; decide),
    beq_false_of_head_ne color "Blue Calx" (by rw [hh]; decide)]

/-- Claim C10: for every valid color argument (known palette name or strict
7-character hex) `config --color` exits 0 and rewrites the config file to
exactly the two `MOTD_COLOR_NAME`/`MOTD_COLOR` lines; any previously stored
`MONITORED_SERVICES` entry is therefore discarded and
`get_monitored_services_list` afterwards returns `[]`. -/
theorem config_write_frame_spec (color : String) (file : Option (List String))
    (h : (CAMPFIRE_COLORS.lookup color).isSome = true ∨ spec_strict_hex color = true) :
    (config_color color file).1 = 0 ∧
    (∃ name hex, (config_color color file).2 = some (config_file_lines name hex)) ∧
    get_monitored_services_list (config_color color file).2 = [] := by
  rcases h with h | h
  · obtain ⟨d, hd⟩ := Option.isSome_iff_exists.mp h
    simp only [config_color, hd]
    exact ⟨by trivial, ⟨color, d.base, by trivial⟩, config_file_lines_no_monitored _ _⟩
  · obtain ⟨rest, hdata, _⟩ := spec_strict_hex_shape color h
    have h1 : CAMPFIRE_COLORS.lookup color = none := lookup_hash_none color rest hdata
    obtain ⟨hs, hl⟩ := spec_strict_hex_accepted color h
    have hc : (py_starts_with color "#" && color.length == 7) = true := by
      rw [Bool.and_eq_true, beq_iff_eq]; exact ⟨hs, hl⟩
    simp only [config_color, h1, hc, if_true]
    exact ⟨by trivial, ⟨"custom", color, by trivial⟩,
      config_file_lines_no_monitored _ _⟩

/-- Witness for C10: setting `Sage` over a config that held monitored
services leaves exactly the two color lines; the services list afterwards is
empty although it was `["nginx", "redis"]` before. -/
theorem config_write_frame_spec_witness :
    (config_color "Sage" (some ["MONITORED_SERVICES=\"nginx, redis\""])).1 = 0 ∧
    (config_color "Sage" (some ["MONITORED_SERVICES=\"nginx, redis\""])).2
      = some (config_file_lines "Sage" "#8fb14b") ∧
    get_monitored_services_list
      (config_color "Sage" (some ["MONITORED_SERVICES=\"nginx, redis\""])).2 = [] ∧
    get_monitored_services_list (some ["MONITORED_SERVICES=\"nginx, redis\""])
      = ["nginx", "redis"] := by
  have h := config_write_frame_spec "Sage"
    (some ["MONITORED_SERVICES=\"nginx, redis\""]) (Or.inl (by decide))
  exact ⟨h.1, by decide, h.2.2, by decide⟩
